import Mathlib

/-!
Shallow embedding of the EnderKids agent-connection core:
the `MinecraftConnector` class of `src/server/minecraft.ts` (connection
registry) and the WebSocket status fan-out of `src/server/routes.ts`
(subscribe handler and `broadcastAgentStatus`).

Registry state is the `connections : Map<number, AgentConnection>` field,
embedded as a function from agent ids to optional records.  Calls the
connector makes on worker handles (`BedrockClient` construction,
`client.end`, `client.sendChat`) are recorded as an ordered effect list, so
that teardown/spawn ordering and fire-and-forget delivery are visible to
theorems.  Asynchronous worker lifecycle callbacks registered in
`connectAgent` (`connect`, `error`, `disconnect`) are embedded as explicit
state-transition functions, matching the handler bodies.
-/

namespace EnderKids

/-- Agent identifiers (`agentId: number` in the source). -/
abbrev AgentId := Nat

/-- WebSocket client identifiers (`clientId = createId()` in the source). -/
abbrev ClientId := String

/-- The `status` field of a connection record:
`"connecting" | "connected" | "disconnected"`. -/
inductive ConnStatus
  | connecting
  | connected
  | disconnected
deriving DecidableEq, Repr

/-- A 3D position `{x, y, z}`.  The source only ever moves these values
around opaquely (defaults and JSON parses), so integer coordinates suffice
for the embedding. -/
structure Position where
  x : Int
  y : Int
  z : Int
deriving DecidableEq, Repr

/-- The opaque registry handle to a `BedrockClient` worker, identified by
the unique username it was constructed with (`"{agentName}_{agentId}"`). -/
structure BedrockClient where
  username : String
deriving DecidableEq, Repr

/-- Worker-handle side effects performed by the connector, in call order:
constructing a new `BedrockClient`, calling `client.end(reason)`, and
calling `client.sendChat(message)`. -/
inductive Effect
  | spawn (client : BedrockClient)
  | endClient (client : BedrockClient) (reason : String)
  | sendChat (client : BedrockClient) (message : String)
deriving DecidableEq, Repr

/-- The `AgentConnection` interface of `src/server/minecraft.ts`. -/
structure AgentConnection where
  client : BedrockClient
  status : ConnStatus
  world : Option String
  position : Option Position
  lastCommand : Option String
  lastCommandResponse : Option String
  connectTime : Option Nat
  currentActivity : Option String
deriving DecidableEq, Repr

/-- The `MinecraftConnector` registry state: its
`connections: Map<number, AgentConnection>` field. -/
structure MinecraftConnector where
  connections : AgentId → Option AgentConnection

/-- `this.connections.set(agentId, conn)`. -/
def MinecraftConnector.set (s : MinecraftConnector) (agentId : AgentId)
    (conn : AgentConnection) : MinecraftConnector :=
  ⟨fun id => if id = agentId then some conn else s.connections id⟩

/-- The freshly constructed connector (`new MinecraftConnector()`): empty map. -/
def MinecraftConnector.init : MinecraftConnector :=
  ⟨fun _ => none⟩

/-- The fresh record stored by `connectAgent`: a new `BedrockClient` for
username `"{agentName}_{agentId}"` and a new connection object in
`connecting` status with the default world, position `(0, 64, 0)`,
`connectTime: Date.now()` and activity `"Joining world"`. -/
def freshConnection (agentName : String) (agentId : AgentId) (now : Nat) :
    AgentConnection :=
  { client := ⟨agentName ++ "_" ++ toString agentId⟩
    status := ConnStatus.connecting
    world := some "EnderKids World"
    position := some ⟨0, 64, 0⟩
    lastCommand := none
    lastCommandResponse := none
    connectTime := some now
    currentActivity := some "Joining world" }

/-- `MinecraftConnector.connectAgent(agentId, agentName)`.  Returns the
boolean result, the updated registry, and the ordered worker-handle
effects.  `now` stands for `Date.now()`. -/
def connectAgent (s : MinecraftConnector) (agentId : AgentId)
    (agentName : String) (now : Nat) :
    Bool × MinecraftConnector × List Effect :=
  match s.connections agentId with
  | some existingConnection =>
    if existingConnection.status = ConnStatus.connected then
      (true, s, [])
    else
      let newConnection := freshConnection agentName agentId now
      (true, s.set agentId newConnection,
        [Effect.endClient existingConnection.client "Reconnecting agent",
         Effect.spawn newConnection.client])
  | none =>
    let newConnection := freshConnection agentName agentId now
    (true, s.set agentId newConnection, [Effect.spawn newConnection.client])

/-- The `client.on("connect", ...)` handler registered by `connectAgent`:
re-fetches the record for `agentId` and sets its status to `connected`. -/
def handleConnect (s : MinecraftConnector) (agentId : AgentId) :
    MinecraftConnector :=
  match s.connections agentId with
  | some updatedConnection =>
    s.set agentId { updatedConnection with status := ConnStatus.connected }
  | none => s

/-- The `client.on("error", ...)` handler registered by `connectAgent`:
sets the status of the record to `disconnected` and stores
`"Connection error: {errorMessage}"` in `lastCommandResponse`. -/
def handleError (s : MinecraftConnector) (agentId : AgentId)
    (errorMessage : String) : MinecraftConnector :=
  match s.connections agentId with
  | some updatedConnection =>
    s.set agentId
      { updatedConnection with
        status := ConnStatus.disconnected
        lastCommandResponse := some ("Connection error: " ++ errorMessage) }
  | none => s

/-- The `client.on("disconnect", ...)` handler registered by `connectAgent`:
sets the status of the record to `disconnected`. -/
def handleDisconnect (s : MinecraftConnector) (agentId : AgentId) :
    MinecraftConnector :=
  match s.connections agentId with
  | some updatedConnection =>
    s.set agentId { updatedConnection with status := ConnStatus.disconnected }
  | none => s

/-- `MinecraftConnector.disconnectAgent(agentId)`. -/
def disconnectAgent (s : MinecraftConnector) (agentId : AgentId) :
    Bool × MinecraftConnector × List Effect :=
  match s.connections agentId with
  | none => (false, s, [])
  | some connection =>
    if connection.status ≠ ConnStatus.disconnected then
      (true, s.set agentId { connection with status := ConnStatus.disconnected },
        [Effect.endClient connection.client "Disconnected by EnderKids platform"])
    else
      (true, s, [])

/-- The result shape of `getAgentStatus`. -/
structure AgentStatus where
  connected : Bool
  world : Option String
  position : Option Position
deriving DecidableEq, Repr

/-- `MinecraftConnector.getAgentStatus(agentId)`. -/
def getAgentStatus (s : MinecraftConnector) (agentId : AgentId) : AgentStatus :=
  match s.connections agentId with
  | none => ⟨false, none, none⟩
  | some connection =>
    ⟨decide (connection.status = ConnStatus.connected),
      connection.world, connection.position⟩

/-- `MinecraftConnector.getOnlineAgent(agentId)`: the full record, only when
its status is `connected`. -/
def getOnlineAgent (s : MinecraftConnector) (agentId : AgentId) :
    Option AgentConnection :=
  match s.connections agentId with
  | none => none
  | some connection =>
    if connection.status = ConnStatus.connected then some connection else none

/-- Embedding of JavaScript `s.toLowerCase().includes(pat)` for the
lowercase keyword literals of `sendCommand`: lowercases `s` character by
character and tests `pat` as a substring. -/
def strContainsCI (s pat : String) : Bool :=
  (s.toList.map Char.toLower).tails.any fun t => pat.toList.isPrefixOf t

/-- The canned-response classification inside `sendCommand`:
case-insensitive substring match with precedence
`build` then `mine` then `come`/`follow` then `stop` then a generic
default. -/
def commandResponse (command : String) : String :=
  if strContainsCI command "build" then
    "Building at current location..."
  else if strContainsCI command "mine" then
    "Mining for resources..."
  else if strContainsCI command "come" || strContainsCI command "follow" then
    "Coming to your location!"
  else if strContainsCI command "stop" then
    "Stopping current action."
  else
    "Command received. Processing..."

/-- `MinecraftConnector.sendCommand(agentId, command)`: result
`{success, message}` as a pair, the updated registry, and the worker-handle
effects (the fire-and-forget `client.sendChat`). -/
def sendCommand (s : MinecraftConnector) (agentId : AgentId)
    (command : String) :
    (Bool × String) × MinecraftConnector × List Effect :=
  match s.connections agentId with
  | none => ((false, "Agent not found"), s, [])
  | some connection =>
    if connection.status ≠ ConnStatus.connected then
      ((false, "Agent is not connected to Minecraft"), s, [])
    else
      let response := commandResponse command
      ((true, response),
        s.set agentId
          { connection with
            lastCommand := some command
            lastCommandResponse := some response },
        [Effect.sendChat connection.client command])

/-- The `agent_status` payload pushed over the WebSocket. -/
structure StatusPayload where
  connected : Bool
  world : Option String
  position : Option Position
  lastAction : String
  lastCommandResponse : String
  timeConnected : Option Nat
deriving DecidableEq, Repr

/-- JavaScript `a || b` for an optional string `a`: falls through to `b`
when `a` is `undefined` or the empty string (both falsy). -/
def jsOrElse : Option String → String → String
  | some a, b => if a = "" then b else a
  | none, b => b

/-- JavaScript `a || null` for an optional number `a`: `0` is falsy. -/
def jsOrNull : Option Nat → Option Nat
  | some a => if a = 0 then none else some a
  | none => none

/-- The `agent_status` payload built by the subscribe handler
(`routes.ts`, `ws.on("message")`): reads `getAgentStatus` and
`getOnlineAgent`, with
`lastAction: onlineAgent?.lastCommand || (status.connected ? "Idle" : "Disconnected")`. -/
def subscribeStatusPayload (conn : MinecraftConnector) (agentId : AgentId) :
    StatusPayload :=
  let status := getAgentStatus conn agentId
  let onlineAgent := getOnlineAgent conn agentId
  { connected := status.connected
    world := status.world
    position := status.position
    lastAction := jsOrElse (onlineAgent.bind AgentConnection.lastCommand)
      (if status.connected then "Idle" else "Disconnected")
    lastCommandResponse :=
      jsOrElse (onlineAgent.bind AgentConnection.lastCommandResponse) ""
    timeConnected := jsOrNull (onlineAgent.bind AgentConnection.connectTime) }

/-- The `agent_status` payload built by `broadcastAgentStatus`
(`routes.ts`): identical to the subscribe payload except
`lastAction: onlineAgent?.lastCommand || "Idle"` with no
`"Disconnected"` branch. -/
def broadcastStatusPayload (conn : MinecraftConnector) (agentId : AgentId) :
    StatusPayload :=
  let status := getAgentStatus conn agentId
  let onlineAgent := getOnlineAgent conn agentId
  { connected := status.connected
    world := status.world
    position := status.position
    lastAction := jsOrElse (onlineAgent.bind AgentConnection.lastCommand) "Idle"
    lastCommandResponse :=
      jsOrElse (onlineAgent.bind AgentConnection.lastCommandResponse) ""
    timeConnected := jsOrNull (onlineAgent.bind AgentConnection.connectTime) }

/-- WebSocket server state relevant to the fan-out: the
`activeConnections` map, embedded as an association list from clientId to
whether the `readyState` of that socket is `OPEN`. -/
structure WsServer where
  activeConnections : List (ClientId × Bool)
deriving DecidableEq, Repr

/-- Messages the server pushes to a WebSocket client that the claims are
about: the `subscribed` acknowledgement and `agent_status` pushes. -/
inductive WsMessage
  | subscribed (agentId : AgentId)
  | agentStatus (agentId : AgentId) (status : StatusPayload)
deriving DecidableEq, Repr

/-- Inbound client messages handled by `ws.on("message")`: a parsed
`\x7btype: "subscribe", agentId\x7d`, or anything else. -/
inductive ClientMessage
  | subscribe (agentId : AgentId)
  | other
deriving DecidableEq, Repr

/-- The `ws.on("message")` handler of `routes.ts`: on
`\x7btype: "subscribe", agentId\x7d` (with a truthy `agentId`) it sends a
`subscribed` acknowledgement and one immediate `agent_status` push to the
requesting socket.  It returns the server state unchanged: the handler
records nothing about which agent was subscribed to. -/
def handleMessage (conn : MinecraftConnector) (srv : WsServer)
    (clientId : ClientId) (data : ClientMessage) :
    WsServer × List (ClientId × WsMessage) :=
  match data with
  | ClientMessage.subscribe agentId =>
    if agentId ≠ 0 then
      (srv,
        [(clientId, WsMessage.subscribed agentId),
         (clientId,
           WsMessage.agentStatus agentId (subscribeStatusPayload conn agentId))])
    else
      (srv, [])
  | ClientMessage.other => (srv, [])

/-- `broadcastAgentStatus(agentId)` of `routes.ts`: builds one
`agent_status` message and sends it to every entry of
`activeConnections` whose `readyState` is `OPEN`. -/
def broadcastAgentStatus (conn : MinecraftConnector) (srv : WsServer)
    (agentId : AgentId) : List (ClientId × WsMessage) :=
  let message :=
    WsMessage.agentStatus agentId (broadcastStatusPayload conn agentId)
  srv.activeConnections.filterMap fun c =>
    if c.2 then some (c.1, message) else none

/-- A sample connected record for agent 5 (as if `connectAgent 5 "Bot"` had
completed its `connect` callback). -/
def sampleConnected : AgentConnection :=
  { client := ⟨"Bot_5"⟩
    status := ConnStatus.connected
    world := some "EnderKids World"
    position := some ⟨0, 64, 0⟩
    lastCommand := none
    lastCommandResponse := none
    connectTime := some 1000
    currentActivity := some "Joining world" }

/-- A registry holding exactly one record: agent 5, connected. -/
def connWith5 : MinecraftConnector :=
  MinecraftConnector.init.set 5 sampleConnected

/-- A sample record still in `connecting` state, for agent 7. -/
def sampleConnecting : AgentConnection := freshConnection "Bot" 7 1000

/-- A registry holding exactly one record: agent 7, connecting. -/
def connWith7 : MinecraftConnector :=
  MinecraftConnector.init.set 7 sampleConnecting

/-- A sample record in `disconnected` state, for agent 8. -/
def sampleDisconnected : AgentConnection :=
  { sampleConnected with client := ⟨"Bot_8"⟩, status := ConnStatus.disconnected }

/-- A registry holding exactly one record: agent 8, disconnected. -/
def connWith8 : MinecraftConnector :=
  MinecraftConnector.init.set 8 sampleDisconnected

/-- A WebSocket server with a single open observer. -/
def srvOneObserver : WsServer :=
  ⟨[("observerA", true)]⟩

/-- Helper for the fan-out count: in a list of connections whose clientIds
are pairwise distinct and which contains the open entry `(cid, true)`, the
per-socket send of `broadcastAgentStatus` delivers exactly one message
addressed to `cid`. -/
theorem countP_open_push (m : WsMessage) (cid : ClientId) :
    ∀ l : List (ClientId × Bool), (l.map Prod.fst).Nodup → (cid, true) ∈ l →
      ((l.filterMap fun c => if c.2 then some (c.1, m) else none).countP
        fun p => p.1 == cid) = 1 := by
  intro l
  induction l with
  | nil =>
    intro _ hmem
    simp at hmem
  | cons a t ih =>
    intro hnodup hmem
    obtain ⟨a1, a2⟩ := a
    rw [List.map_cons, List.nodup_cons] at hnodup
    obtain ⟨hnotin, hnodup2⟩ := hnodup
    rcases List.mem_cons.mp hmem with heq | hmemt
    · injection heq with h1 h2
      subst h1
      subst h2
      have hz : ((t.filterMap fun c =>
          if c.2 then some (c.1, m) else none).countP fun p => p.1 == cid) = 0 := by
        rw [List.countP_eq_zero]
        intro p hp
        obtain ⟨c, hct, hfc⟩ := List.mem_filterMap.mp hp
        by_cases hb : c.2 = true
        · rw [if_pos hb] at hfc
          have hfc2 := Option.some.inj hfc
          have hp1 : p.1 = c.1 := by
            rw [← hfc2]
          have hc1 : c.1 ∈ t.map Prod.fst := List.mem_map_of_mem Prod.fst hct
          simp only [beq_iff_eq]
          intro hcontra
          apply hnotin
          rw [← hcontra, hp1]
          exact hc1
        · rw [if_neg hb] at hfc
          exact absurd hfc (Option.noConfusion)
      rw [show (((cid, true) : ClientId × Bool) :: t).filterMap
          (fun c => if c.2 then some (c.1, m) else none) =
          (cid, m) :: t.filterMap (fun c => if c.2 then some (c.1, m) else none)
        from rfl]
      rw [List.countP_cons, hz]
      simp
    · have hcidin : cid ∈ t.map Prod.fst := by
        have := List.mem_map_of_mem Prod.fst hmemt
        simpa using this
      have hne : a1 ≠ cid := fun h => hnotin (h ▸ hcidin)
      by_cases hb : a2 = true
      · subst hb
        rw [show (((a1, true) : ClientId × Bool) :: t).filterMap
            (fun c => if c.2 then some (c.1, m) else none) =
            (a1, m) :: t.filterMap (fun c => if c.2 then some (c.1, m) else none)
          from rfl]
        rw [List.countP_cons]
        have hfalse : (((a1, m) : ClientId × WsMessage).1 == cid) = false := by
          simp [hne]
        rw [hfalse]
        simp [ih hnodup2 hmemt]
      · have hb2 : a2 = false := by
          cases a2
          · rfl
          · exact absurd rfl hb
        subst hb2
        rw [show (((a1, false) : ClientId × Bool) :: t).filterMap
            (fun c => if c.2 then some (c.1, m) else none) =
            t.filterMap (fun c => if c.2 then some (c.1, m) else none)
          from rfl]
        exact ih hnodup2 hmemt

/-- C1, counterexample.  The claim asserts per-agent subscription
filtering: an observer subscribed only to agent 5 receives no push from a
broadcast for agent 6.  In the source, the subscribe handler records
nothing about the subscription (the server state is returned unchanged) and
`broadcastAgentStatus` sends to every open entry of `activeConnections`, so
the observer that subscribed only to agent 5 does receive an
`agent_status` push when agent 6 is broadcast. -/
theorem C1_broadcast_unfiltered_cex :
    (handleMessage connWith5 srvOneObserver "observerA"
      (ClientMessage.subscribe 5)).1 = srvOneObserver ∧
    (handleMessage connWith5 srvOneObserver "observerA"
      (ClientMessage.subscribe 5)).2 =
      [("observerA", WsMessage.subscribed 5),
       ("observerA", WsMessage.agentStatus 5 (subscribeStatusPayload connWith5 5))] ∧
    broadcastAgentStatus connWith5 srvOneObserver 6 =
      [("observerA", WsMessage.agentStatus 6 (broadcastStatusPayload connWith5 6))] ∧
    broadcastAgentStatus connWith5 srvOneObserver 6 ≠ [] :=
  ⟨rfl, rfl, rfl, by decide⟩

/-- C1 (amended): the fan-out is unfiltered.  For every registry state,
server state with pairwise-distinct clientIds, and agentId, a
`broadcastAgentStatus(agentId)` call delivers exactly one push to each open
observer — whatever that observer subscribed to — and every delivered
message is the `agent_status` snapshot for the broadcast agentId.
Processing a subscribe message changes no server state, so subscriptions
cannot and do not restrict later broadcasts; the "exactly one push per
notify" half of the original claim holds, the "no push for other agents"
half does not. -/
theorem C1_broadcast_fanout_amended (conn : MinecraftConnector)
    (srv : WsServer) (agentId : AgentId) (cid : ClientId)
    (hnodup : (srv.activeConnections.map Prod.fst).Nodup)
    (hopen : (cid, true) ∈ srv.activeConnections) :
    ((broadcastAgentStatus conn srv agentId).countP fun p => p.1 == cid) = 1 ∧
    (∀ p ∈ broadcastAgentStatus conn srv agentId,
      p.2 = WsMessage.agentStatus agentId (broadcastStatusPayload conn agentId)) ∧
    (∀ data : ClientMessage, (handleMessage conn srv cid data).1 = srv) := by
  refine ⟨countP_open_push _ cid srv.activeConnections hnodup hopen, ?_, ?_⟩
  · intro p hp
    simp only [broadcastAgentStatus] at hp
    obtain ⟨c, hct, hfc⟩ := List.mem_filterMap.mp hp
    by_cases hb : c.2 = true
    · rw [if_pos hb] at hfc
      have hfc2 := Option.some.inj hfc
      rw [← hfc2]
    · rw [if_neg hb] at hfc
      exact absurd hfc (Option.noConfusion)
  · intro data
    cases data with
    | subscribe agentId2 =>
      by_cases h0 : agentId2 = 0
      · simp [handleMessage, h0]
      · simp [handleMessage, h0]
    | other => rfl

/-- C1 witness: in the registry holding connected agent 5 and a server with
the single open observer, a broadcast for agent 5 delivers exactly one push
to that observer. -/
theorem C1_broadcast_fanout_witness :
    ((broadcastAgentStatus connWith5 srvOneObserver 5).countP
      fun p => p.1 == "observerA") = 1 :=
  (C1_broadcast_fanout_amended connWith5 srvOneObserver 5 "observerA"
    (by decide) (by decide)).1

/-- C2: for every registry state holding a record for `agentId`, calling
`connectAgent` while the record is `connected` is a no-op returning `true`
with no worker constructed and no teardown; in any other state it first
calls `client.end` on the prior worker handle, then constructs a new worker
and stores a fresh record in `connecting` state.  (At most one record per
agentId exists by construction: the registry is a map keyed by agentId.) -/
theorem C2_connect_lifecycle (s : MinecraftConnector) (agentId : AgentId)
    (agentName : String) (now : Nat) (c : AgentConnection)
    (h : s.connections agentId = some c) :
    (c.status = ConnStatus.connected →
      connectAgent s agentId agentName now = (true, s, [])) ∧
    (c.status ≠ ConnStatus.connected →
      connectAgent s agentId agentName now =
        (true, s.set agentId (freshConnection agentName agentId now),
          [Effect.endClient c.client "Reconnecting agent",
           Effect.spawn (freshConnection agentName agentId now).client]) ∧
      (freshConnection agentName agentId now).status = ConnStatus.connecting) := by
  constructor
  · intro hc
    simp [connectAgent, h, hc]
  · intro hc
    refine ⟨?_, rfl⟩
    simp [connectAgent, h, hc]

/-- C2 witness: reconnecting the already-connected agent 5 is a no-op, and
reconnecting the still-connecting agent 7 tears the old handle down before
spawning the fresh one. -/
theorem C2_connect_lifecycle_witness :
    connectAgent connWith5 5 "Bot" 2000 = (true, connWith5, []) ∧
    connectAgent connWith7 7 "Bot" 2000 =
      (true, connWith7.set 7 (freshConnection "Bot" 7 2000),
        [Effect.endClient sampleConnecting.client "Reconnecting agent",
         Effect.spawn (freshConnection "Bot" 7 2000).client]) := by
  constructor
  · exact (C2_connect_lifecycle connWith5 5 "Bot" 2000 sampleConnected
      (by decide)).1 (by decide)
  · exact ((C2_connect_lifecycle connWith7 7 "Bot" 2000 sampleConnecting
      (by decide)).2 (by decide)).1

/-- C3, counterexample.  The claim asserts the keyword `find` maps to the
mining response; the source matches only `build`, `mine`, `come`,
`follow`, `stop`, so a connected agent receiving `"find diamonds"` gets the
generic response, not `"Mining for resources..."`. -/
theorem C3_find_keyword_cex :
    (sendCommand connWith5 5 "find diamonds").1 =
      (true, "Command received. Processing...") ∧
    (sendCommand connWith5 5 "find diamonds").1.2 ≠
      "Mining for resources..." := by
  constructor
  · decide
  · decide

/-- C3 (amended): for a record in `connected` state, `sendCommand`
classifies the text case-insensitively with precedence build then mine then
come/follow then stop then default (with no `find` keyword: `find` only
matches when the text also contains `mine`), returns
`{success: true, message: <canned response>}`, stores the text as
`lastCommand` and the response as `lastCommandResponse`, and forwards the
raw text to the worker fire-and-forget.  Overlapping keywords hit the first
match only. -/
theorem C3_command_classification_amended (s : MinecraftConnector)
    (agentId : AgentId) (c : AgentConnection) (command : String)
    (h : s.connections agentId = some c) (hc : c.status = ConnStatus.connected) :
    sendCommand s agentId command =
      ((true, commandResponse command),
        s.set agentId
          { c with
            lastCommand := some command
            lastCommandResponse := some (commandResponse command) },
        [Effect.sendChat c.client command]) ∧
    (strContainsCI command "build" = true →
      commandResponse command = "Building at current location...") ∧
    (strContainsCI command "build" = false →
      strContainsCI command "mine" = true →
      commandResponse command = "Mining for resources...") ∧
    (strContainsCI command "build" = false →
      strContainsCI command "mine" = false →
      (strContainsCI command "come" = true ∨ strContainsCI command "follow" = true) →
      commandResponse command = "Coming to your location!") ∧
    (strContainsCI command "build" = false →
      strContainsCI command "mine" = false →
      strContainsCI command "come" = false →
      strContainsCI command "follow" = false →
      strContainsCI command "stop" = true →
      commandResponse command = "Stopping current action.") ∧
    (strContainsCI command "build" = false →
      strContainsCI command "mine" = false →
      strContainsCI command "come" = false →
      strContainsCI command "follow" = false →
      strContainsCI command "stop" = false →
      commandResponse command = "Command received. Processing...") := by
  refine ⟨?_, ?_, ?_, ?_, ?_, ?_⟩
  · simp [sendCommand, h, hc]
  · intro h1
    simp [commandResponse, h1]
  · intro h1 h2
    simp [commandResponse, h1, h2]
  · intro h1 h2 h3
    rcases h3 with h3 | h3 <;> simp [commandResponse, h1, h2, h3]
  · intro h1 h2 h3 h4 h5
    simp [commandResponse, h1, h2, h3, h4, h5]
  · intro h1 h2 h3 h4 h5
    simp [commandResponse, h1, h2, h3, h4, h5]

/-- C3 witness: the overlapping text `"build a mine"` hits the first match
(build) only. -/
theorem C3_command_classification_witness :
    (sendCommand connWith5 5 "build a mine").1 =
      (true, "Building at current location...") := by
  rw [(C3_command_classification_amended connWith5 5 sampleConnected
    "build a mine" (by decide) (by decide)).1]
  decide

/-- C4, counterexample.  The claim asserts the not-connected failure
message is exactly `"Agent is not connected"`; the source returns
`"Agent is not connected to Minecraft"`. -/
theorem C4_not_connected_message_cex :
    (sendCommand connWith7 7 "hello").1.1 = false ∧
    (sendCommand connWith7 7 "hello").1.2 =
      "Agent is not connected to Minecraft" ∧
    (sendCommand connWith7 7 "hello").1.2 ≠ "Agent is not connected" := by
  refine ⟨?_, ?_, ?_⟩ <;> decide

/-- C4 (amended): for every record in a state other than `connected`,
`sendCommand` returns `{success: false, message: "Agent is not connected to
Minecraft"}`, performs no effect and never throws (the embedding is a total
function returning the registry unchanged). -/
theorem C4_not_connected_amended (s : MinecraftConnector) (agentId : AgentId)
    (c : AgentConnection) (command : String)
    (h : s.connections agentId = some c)
    (hc : c.status ≠ ConnStatus.connected) :
    sendCommand s agentId command =
      ((false, "Agent is not connected to Minecraft"), s, []) := by
  simp [sendCommand, h, hc]

/-- C4 witness: agent 7 is in `connecting` state, so the command fails with
the not-connected message. -/
theorem C4_not_connected_witness :
    sendCommand connWith7 7 "hello" =
      ((false, "Agent is not connected to Minecraft"), connWith7, []) :=
  C4_not_connected_amended connWith7 7 sampleConnecting "hello"
    (by decide) (by decide)

/-- C5: `disconnectAgent` returns `false` exactly when no record exists,
and whenever a record exists the registry view is `connected = false`
immediately after the call returns — the status is set synchronously,
without waiting for worker teardown (which is only the fire-and-forget
`client.end` effect). -/
theorem C5_disconnect_sync (s : MinecraftConnector) (agentId : AgentId) :
    ((disconnectAgent s agentId).1 = false ↔ s.connections agentId = none) ∧
    (∀ c, s.connections agentId = some c →
      (getAgentStatus (disconnectAgent s agentId).2.1 agentId).connected =
        false) := by
  constructor
  · cases hc : s.connections agentId with
    | none => simp [disconnectAgent, hc]
    | some c =>
      by_cases hs : c.status = ConnStatus.disconnected <;>
        simp [disconnectAgent, hc, hs]
  · intro c hc
    by_cases hs : c.status = ConnStatus.disconnected
    · simp [disconnectAgent, hc, hs, getAgentStatus]
    · simp [disconnectAgent, hc, hs, getAgentStatus, MinecraftConnector.set]

/-- C5 witness: disconnecting the connected agent 5 leaves
`getAgentStatus(5).connected = false` synchronously. -/
theorem C5_disconnect_sync_witness :
    (getAgentStatus (disconnectAgent connWith5 5).2.1 5).connected = false :=
  (C5_disconnect_sync connWith5 5).2 sampleConnected (by decide)

/-- C6: for every agentId with no record — in particular every agentId on
the freshly constructed connector, whose map is empty — `getAgentStatus`
returns `connected = false` with no world and no position, `getOnlineAgent`
returns nothing, `sendCommand` fails with `"Agent not found"`, and
`disconnectAgent` returns `false`; all four are total functions that leave
the registry unchanged and perform no effect. -/
theorem C6_unknown_agent_defaults (agentId : AgentId) (command : String) :
    MinecraftConnector.init.connections agentId = none ∧
    ∀ s : MinecraftConnector, s.connections agentId = none →
      getAgentStatus s agentId = ⟨false, none, none⟩ ∧
      getOnlineAgent s agentId = none ∧
      sendCommand s agentId command = ((false, "Agent not found"), s, []) ∧
      disconnectAgent s agentId = (false, s, []) := by
  refine ⟨rfl, ?_⟩
  intro s h
  refine ⟨?_, ?_, ?_, ?_⟩ <;>
    simp [getAgentStatus, getOnlineAgent, sendCommand, disconnectAgent, h]

/-- C6 witness: agent 999 was never connected on the fresh connector. -/
theorem C6_unknown_agent_defaults_witness :
    getAgentStatus MinecraftConnector.init 999 = ⟨false, none, none⟩ ∧
    sendCommand MinecraftConnector.init 999 "/mine" =
      ((false, "Agent not found"), MinecraftConnector.init, []) := by
  have h := (C6_unknown_agent_defaults 999 "/mine").2
    MinecraftConnector.init rfl
  exact ⟨h.1, h.2.2.1⟩

/-- C7: for every agentId with a record, the worker error callback
transitions that record to `disconnected` and stores
`"Connection error: <message>"` in `lastCommandResponse`, while every other
agentId keeps its record untouched; the handler is a total function, so
nothing is thrown to callers. -/
theorem C7_error_event_isolated (s : MinecraftConnector) (agentId : AgentId)
    (c : AgentConnection) (errorMessage : String)
    (h : s.connections agentId = some c) :
    (handleError s agentId errorMessage).connections agentId =
      some { c with
        status := ConnStatus.disconnected
        lastCommandResponse := some ("Connection error: " ++ errorMessage) } ∧
    ∀ other, other ≠ agentId →
      (handleError s agentId errorMessage).connections other =
        s.connections other := by
  constructor
  · simp [handleError, h, MinecraftConnector.set]
  · intro other hne
    simp [handleError, h, MinecraftConnector.set, hne]

/-- C7 witness: an error event for agent 5 folds the message into the
record of agent 5 and leaves agent 6 untouched. -/
theorem C7_error_event_isolated_witness :
    (handleError connWith5 5 "boom").connections 5 =
      some { sampleConnected with
        status := ConnStatus.disconnected
        lastCommandResponse := some "Connection error: boom" } ∧
    (handleError connWith5 5 "boom").connections 6 =
      connWith5.connections 6 := by
  have h := C7_error_event_isolated connWith5 5 sampleConnected "boom"
    (by decide)
  constructor
  · rw [h.1]
    decide
  · exact h.2 6 (by decide)

/-- C8, counterexample.  The claim asserts every push carries
`lastAction = "Disconnected"` when the agent is not connected; the
`broadcastAgentStatus` payload has no `"Disconnected"` branch
(`onlineAgent?.lastCommand || "Idle"`), so the broadcast push for the
disconnected agent 8 carries `"Idle"`. -/
theorem C8_broadcast_lastaction_cex :
    (broadcastStatusPayload connWith8 8).connected = false ∧
    (broadcastStatusPayload connWith8 8).lastAction = "Idle" ∧
    (broadcastStatusPayload connWith8 8).lastAction ≠ "Disconnected" := by
  refine ⟨?_, ?_, ?_⟩ <;> decide

/-- C8 (amended): both push payloads carry `connected`, `world`,
`position`, `lastCommandResponse` and `timeConnected` derived from the
record, and `lastAction` equal to the lastCommand of the record when the
agent is connected and a nonempty lastCommand exists; when the agent is not
connected, the subscribe push carries `lastAction = "Disconnected"` but the
notify (broadcast) push carries `lastAction = "Idle"`, and both then carry
an empty `lastCommandResponse` and no `timeConnected`, because the full
record is read through `getOnlineAgent`, which yields nothing for a
non-connected record. -/
theorem C8_payload_fields_amended (conn : MinecraftConnector)
    (agentId : AgentId) (c : AgentConnection)
    (h : conn.connections agentId = some c) :
    ((subscribeStatusPayload conn agentId).connected =
        decide (c.status = ConnStatus.connected) ∧
      (broadcastStatusPayload conn agentId).connected =
        decide (c.status = ConnStatus.connected) ∧
      (subscribeStatusPayload conn agentId).world = c.world ∧
      (broadcastStatusPayload conn agentId).world = c.world ∧
      (subscribeStatusPayload conn agentId).position = c.position ∧
      (broadcastStatusPayload conn agentId).position = c.position) ∧
    (c.status = ConnStatus.connected →
      (subscribeStatusPayload conn agentId).lastAction =
        jsOrElse c.lastCommand "Idle" ∧
      (broadcastStatusPayload conn agentId).lastAction =
        jsOrElse c.lastCommand "Idle" ∧
      (subscribeStatusPayload conn agentId).lastCommandResponse =
        jsOrElse c.lastCommandResponse "" ∧
      (broadcastStatusPayload conn agentId).lastCommandResponse =
        jsOrElse c.lastCommandResponse "" ∧
      (subscribeStatusPayload conn agentId).timeConnected =
        jsOrNull c.connectTime ∧
      (broadcastStatusPayload conn agentId).timeConnected =
        jsOrNull c.connectTime) ∧
    (c.status ≠ ConnStatus.connected →
      (subscribeStatusPayload conn agentId).lastAction = "Disconnected" ∧
      (broadcastStatusPayload conn agentId).lastAction = "Idle" ∧
      (subscribeStatusPayload conn agentId).lastCommandResponse = "" ∧
      (broadcastStatusPayload conn agentId).lastCommandResponse = "" ∧
      (subscribeStatusPayload conn agentId).timeConnected = none ∧
      (broadcastStatusPayload conn agentId).timeConnected = none) := by
  by_cases hs : c.status = ConnStatus.connected
  · refine ⟨?_, fun _ => ?_, fun hne => absurd hs hne⟩ <;>
      simp [subscribeStatusPayload, broadcastStatusPayload, getAgentStatus,
        getOnlineAgent, h, hs]
  · refine ⟨?_, fun hcon => absurd hcon hs, fun _ => ?_⟩ <;>
      simp [subscribeStatusPayload, broadcastStatusPayload, getAgentStatus,
        getOnlineAgent, h, hs, jsOrElse, jsOrNull]

/-- C8 witness: for the disconnected agent 8, the subscribe push says
`"Disconnected"` while the broadcast push says `"Idle"`. -/
theorem C8_payload_fields_witness :
    (subscribeStatusPayload connWith8 8).lastAction = "Disconnected" ∧
    (broadcastStatusPayload connWith8 8).lastAction = "Idle" := by
  have h := (C8_payload_fields_amended connWith8 8 sampleDisconnected
    (by decide)).2.2 (by decide)
  exact ⟨h.1, h.2.1⟩

/-- C9: `disconnectAgent` on an existing record returns `true` and changes
only the status field — world, position, lastCommand, lastCommandResponse
and connectTime are preserved, records of other agentIds are untouched, and
`getAgentStatus` afterwards still reports the stale world and position next
to `connected = false`. -/
theorem C9_disconnect_frame (s : MinecraftConnector) (agentId : AgentId)
    (c : AgentConnection) (h : s.connections agentId = some c) :
    (disconnectAgent s agentId).1 = true ∧
    (disconnectAgent s agentId).2.1.connections agentId =
      some { c with status := ConnStatus.disconnected } ∧
    (∀ other, other ≠ agentId →
      (disconnectAgent s agentId).2.1.connections other =
        s.connections other) ∧
    getAgentStatus (disconnectAgent s agentId).2.1 agentId =
      ⟨false, c.world, c.position⟩ := by
  by_cases hs : c.status = ConnStatus.disconnected
  · have hrec : { c with status := ConnStatus.disconnected } = c := by
      cases c
      simp_all
    refine ⟨?_, ?_, ?_, ?_⟩
    · simp [disconnectAgent, h, hs]
    · simp [disconnectAgent, h, hs, hrec]
    · intro other hne
      simp [disconnectAgent, h, hs]
    · simp [disconnectAgent, h, hs, getAgentStatus]
  · refine ⟨?_, ?_, ?_, ?_⟩
    · simp [disconnectAgent, h, hs]
    · simp [disconnectAgent, h, hs, MinecraftConnector.set]
    · intro other hne
      simp [disconnectAgent, h, hs, MinecraftConnector.set, hne]
    · simp [disconnectAgent, h, hs, getAgentStatus, MinecraftConnector.set]

/-- C9 witness: disconnecting agent 5 flips only the status and leaves the
record of agent 6 and the stale world and position in place. -/
theorem C9_disconnect_frame_witness :
    (disconnectAgent connWith5 5).2.1.connections 5 =
      some { sampleConnected with status := ConnStatus.disconnected } ∧
    (disconnectAgent connWith5 5).2.1.connections 6 =
      connWith5.connections 6 ∧
    getAgentStatus (disconnectAgent connWith5 5).2.1 5 =
      ⟨false, sampleConnected.world, sampleConnected.position⟩ := by
  have h := C9_disconnect_frame connWith5 5 sampleConnected (by decide)
  exact ⟨h.2.1, h.2.2.1 6 (by decide), h.2.2.2⟩

/-- C10: whenever `sendCommand` fails (no record, or record not in
`connected` state), the registry is returned unchanged — no record is
created, removed or modified — and no worker effect is performed. -/
theorem C10_sendCommand_failure_frame (s : MinecraftConnector)
    (agentId : AgentId) (command : String)
    (h : (sendCommand s agentId command).1.1 = false) :
    (sendCommand s agentId command).2.1 = s ∧
    (sendCommand s agentId command).2.2 = [] := by
  cases hc : s.connections agentId with
  | none => simp [sendCommand, hc]
  | some c =>
    by_cases hs : c.status = ConnStatus.connected
    · exfalso
      simp [sendCommand, hc, hs] at h
    · simp [sendCommand, hc, hs]

/-- C10 witness: the failed command for the unknown agent 999 leaves the
fresh connector untouched. -/
theorem C10_sendCommand_failure_frame_witness :
    (sendCommand MinecraftConnector.init 999 "mine gold").2.1 =
      MinecraftConnector.init ∧
    (sendCommand MinecraftConnector.init 999 "mine gold").2.2 = [] :=
  C10_sendCommand_failure_frame MinecraftConnector.init 999 "mine gold"
    (by decide)

end EnderKids
